import Mathlib

/-!
Shallow embedding of `src/app.py` (the "Principia" backend): three Flask
endpoints (`/api/analyze`, `/api/convert`, `/api/ocr`) that validate the
request body, resolve per-request model credentials, compose prompts, call
an external model (modelled here as a caller-supplied stub of type
`Except String String`: `.ok raw` is the completion text, `.error e` an
upstream exception), sanitize the raw completion, and return a JSON object
together with an HTTP status.  Each endpoint is embedded as a pure function
from the request body and the stubbed model results to the pair
(response, list of user prompts sent to the model, in call order).
-/

namespace Principia

/-! ### Python string primitives

Python `str.strip`, `str.startswith`, `str.endswith`, slicing `s[n:]`,
`s[:-n]` and `s.split(sep, 1)[1]`, modelled on the character list of a
`String`.  Python strips the whitespace set including `\x0b` and `\x0c`.
-/

def isPySpace (c : Char) : Bool :=
  c = ' ' || c = '\t' || c = '\n' || c = '\r' || c = '\x0b' || c = '\x0c'

def pyStrip (s : String) : String :=
  String.mk (((s.data.dropWhile isPySpace).reverse.dropWhile isPySpace).reverse)

def pyStartswith (s pre : String) : Bool :=
  pre.data.isPrefixOf s.data

def pyEndswith (s suf : String) : Bool :=
  suf.data.isSuffixOf s.data

/-- Python `s[n:]`. -/
def pyDrop (s : String) (n : Nat) : String :=
  String.mk (s.data.drop n)

/-- Python `s[:-n]` (for `n ≤ len s`; clamps to `""` like Python otherwise). -/
def pyDropEnd (s : String) (n : Nat) : String :=
  String.mk (s.data.take (s.data.length - n))

/-- Python `s.split('\n', 1)[1]`: the text after the first newline, or
`none` when there is no newline (in which case the Python indexing raises
`IndexError: list index out of range`). -/
def pyAfterFirstNl (s : String) : Option String :=
  match s.data.dropWhile (fun c => !(c = '\n')) with
  | [] => none
  | _ :: rest => some (String.mk rest)

/-! ### Data model -/

/-- A per-request model configuration block (`reasoningConfig` /
`visionConfig`).  Absent string fields are the empty string, matching the
falsy behaviour of `dict.get` in the source. -/
structure ApiConfig where
  apiKey : String
  baseUrl : String
  model : String
deriving DecidableEq, Repr

/-- Truthiness test `if cfg and cfg.get('apiKey'):` from the source: the
block must be present (a present-but-empty dict is falsy, like an absent
one) and its `apiKey` non-empty. -/
def configUsable : Option ApiConfig → Bool
  | none => false
  | some c => !(c.apiKey = "")

/-- Body of a POST to `/api/analyze` (fields read at app.py lines 20-23). -/
structure AnalyzeBody where
  context : String
  fullContext : String
  reasoningConfig : Option ApiConfig
  visionConfig : Option ApiConfig
deriving DecidableEq, Repr

/-- Body of a POST to `/api/convert` (fields read at app.py lines 158-160).
`targetFormat := none` models an absent field (the source defaults it to
`'tex'`). -/
structure ConvertBody where
  content : String
  targetFormat : Option String
  reasoningConfig : Option ApiConfig
deriving DecidableEq, Repr

/-- Body of a POST to `/api/ocr` (fields read at app.py lines 246-249). -/
structure OcrBody where
  image : String
  visionConfig : Option ApiConfig
  previousContext : String
  nextContext : String
deriving DecidableEq, Repr

/-- A JSON-object response, as produced by `jsonify`: every payload in the
source is a flat object with string values, so the fields are an ordered
association list, paired with the HTTP status code. -/
structure HttpResponse where
  fields : List (String × String)
  status : Nat
deriving DecidableEq, Repr

/-! ### Response sanitizers (fence stripping) -/

/-- Analyze visualization cleanup, app.py lines 138-143: strip a leading
"```html" (7 chars), then a leading "```", then a trailing "```".  Note
there is no final trim in this endpoint. -/
def vizCleanup (s0 : String) : String :=
  let s1 := if pyStartswith s0 "```html" then pyDrop s0 7 else s0
  let s2 := if pyStartswith s1 "```" then pyDrop s1 3 else s1
  if pyEndswith s2 "```" then pyDropEnd s2 3 else s2

/-- OCR cleanup, app.py lines 311-316: strip a leading "```latex"
(8 chars), then a leading "```", then a trailing "```". -/
def ocrCleanup (s0 : String) : String :=
  let s1 := if pyStartswith s0 "```latex" then pyDrop s0 8 else s0
  let s2 := if pyStartswith s1 "```" then pyDrop s1 3 else s1
  if pyEndswith s2 "```" then pyDropEnd s2 3 else s2

/-- Convert cleanup, app.py lines 229-234: when the text starts with
"```latex" or "```markdown", keep only the part after the first newline
(`converted.split('\n', 1)[1]` — which raises `IndexError` when there is
no newline); then strip a leading "```" and a trailing "```". -/
def convertCleanup (s0 : String) : Except String String :=
  match (if pyStartswith s0 "```latex" || pyStartswith s0 "```markdown"
         then pyAfterFirstNl s0 else some s0) with
  | none => Except.error "list index out of range"
  | some s1 =>
    let s2 := if pyStartswith s1 "```" then pyDrop s1 3 else s1
    Except.ok (if pyEndswith s2 "```" then pyDropEnd s2 3 else s2)

/-- The full Analyze visualization sanitizer as applied to the raw model
text: `.strip()` at app.py line 135, then the fence cleanup; no final
trim. -/
def analyzeVizSanitize (raw : String) : String :=
  vizCleanup (pyStrip raw)

/-- The full Convert sanitizer as applied to the raw model text:
`.strip()` at line 226, the fence cleanup, then the final
`converted.strip()` at line 236. -/
def convertSanitize (raw : String) : Except String String :=
  (convertCleanup (pyStrip raw)).map pyStrip

/-- The full OCR sanitizer as applied to the raw model text: `.strip()` at
line 309, the fence cleanup, then the final `latex_code.strip()` at
line 318. -/
def ocrSanitize (raw : String) : String :=
  pyStrip (ocrCleanup (pyStrip raw))

/-! ### Prompt composition

The f-strings of the source, as Lean string concatenations.  Literal curly
braces and apostrophes of the Python text are written with `\x7b`, `\x7d`
and `\x27` escapes; the string values are identical to the source's.
-/

/-- `explanation_prompt`, app.py lines 41-59. -/
def explanation_prompt (context full_context : String) : String :=
  "\n        You are an expert physics and mathematics tutor.\n        \n        Target Formula/Concept: \"" ++
  context ++
  "\"\n        \n        Full Document Context:\n        \"" ++
  full_context ++
  "\"\n        \n        Task:\n        1. Analyze the \"Target Formula/Concept\" within the context of the \"Full Document Context\".\n        2. Provide a brief, clear, and insightful explanation. Focus on the \"why\" and \"how\".\n        3. **LANGUAGE DETECTION**: Detect the language used in the \"Full Document Context\" (e.g., English, Chinese, French). \n        4. **OUTPUT LANGUAGE**: Your explanation MUST be in the SAME language as the \"Full Document Context\". If the context is mixed, prioritize the language of the descriptive text surrounding the formula.\n        5. **MATH RENDERING**: If your explanation includes mathematical formulas, YOU MUST wrap them in standard LaTeX math delimiters:\n           - Use $...$ for inline math (e.g., $E=mc^2$).\n           - Use $$...$$ for display math.\n           - DO NOT use markdown code blocks for math.\n        6. Return ONLY the explanation text.\n        "

/-- `viz_prompt`, app.py lines 83-126: embeds the target concept, the
sanitized explanation from stage 1, and the full document context. -/
def viz_prompt (context explanation full_context : String) : String :=
  "\n        You are an expert frontend developer and physics simulation specialist.\n        \n        Task: Create a **Dynamic, Interactive Physics Simulation** using HTML5 Canvas and JavaScript.\n        \n        **Source Material**:\n        1. **Target Concept**: \"" ++
  context ++
  "\"\n        2. **Physics Logic (Source of Truth for Formulas)**: \n           \"" ++
  explanation ++
  "\"\n        3. **Scenario Context (Source of Truth for Environment/Parameters)**: \n           \"" ++
  full_context ++
  "\"\n        \n        **Implementation Strategy**:\n        1. **Analyze the Physics**: Use the \"Physics Logic\" to determine the governing equations (kinematics, dynamics, wave equations, etc.).\n        2. **Extract Parameters**: Scan the \"Scenario Context\" for specific values (e.g., \"velocity of 20m/s\", \"angle of 45 degrees\", \"mass of 5kg\"). \n           - **CRITICAL**: If the context mentions specific numbers, YOU MUST set them as the initial values for your simulation variables.\n        3. **Design the Visuals**: Use the \"Scenario Context\" to decide what to draw (e.g., if it mentions a \"cliff\", draw a cliff; if \"spring\", draw a spring).\n        \n        CRITICAL REQUIREMENTS:\n        1. **Relevance**: The simulation MUST directly visualize the specific physics concept described.\n           - Use the context to understand specific scenarios.\n           - If it\x27s a projectile, show a projectile.\n           - If it\x27s a wave, show a wave.\n           - If it\x27s a field, show vector fields or particles in a field.\n           - **DO NOT default to a pendulum or spring unless the concept specifically calls for it.**\n        \n        2. **Physics Accuracy**: Use `requestAnimationFrame` to animate the system based on real physics equations derived from the concept.\n        \n        3. **Interactivity**: Include HTML range sliders to adjust key parameters relevant to the specific model (e.g., initial velocity, charge, frequency, mass).\n        \n        4. **Style**: \n          - Background: Dark (`#000` or `#111`).\n          - Text: Light (`#eee`).\n          - Controls: Minimalist, styled for dark mode.\n        \n        5. **Language Adaptation**:\n          - **LANGUAGE DETECTION**: Detect the language used in the \"Full Document Context\" (e.g., English, Chinese, French).\n          - **OUTPUT LANGUAGE**: Any text displayed in the simulation (labels, titles, slider names, instructions) MUST be in the SAME language as the \"Full Document Context\". If the context is mixed, prioritize the language of the descriptive text surrounding the formula.\n\n        6. **Output Format**:\n          - Return **ONLY** the HTML snippet containing the container `div`, controls, and the `script` tag.\n          - Do NOT include `<html>`, `<head>`, `<body>`, or markdown code fences.\n          - The root container must have `width: 100%; height: 300px;`.\n        "

/-- Convert prompt for `target_format == 'tex'`, app.py lines 179-196. -/
def convert_prompt_tex (content : String) : String :=
  "\n            Convert the following Markdown/LaTeX mixed content into a pure, compile-ready LaTeX document body.\n            \n            Rules:\n            1. Convert Markdown headers (#, ##) to LaTeX sections (\\section, \\subsection).\n            2. Convert Markdown lists (- , 1.) to LaTeX lists (itemize, enumerate).\n            3. Convert Markdown bold/italic to LaTeX (\\textbf, \\textit).\n            4. **COLOR PRESERVATION**:\n               - Keep `\\textcolor\x7bcolor\x7d\x7btext\x7d` as is.\n               - Convert `<font color=\"color\">text</font>` to `\\textcolor\x7bcolor\x7d\x7btext\x7d` (if present).\n               - Convert `<span style=\"color: color\">text</span>` to `\\textcolor\x7bcolor\x7d\x7btext\x7d` (if present).\n            5. Keep existing LaTeX math ($...$, $$...$$) unchanged.\n            6. Return ONLY the converted LaTeX body code. Do NOT wrap in \\documentclass.\n            7. Do not include markdown code fences.\n            \n            Content:\n            \"" ++
  content ++
  "\"\n            "

/-- Convert prompt for the `else` (Markdown) branch, app.py lines 198-217. -/
def convert_prompt_md (content : String) : String :=
  "\n            Convert the following LaTeX content into clean Markdown.\n            \n            Rules:\n            1. **COLOR PRESERVATION (HIGHEST PRIORITY)**: \n               - **KEEP** `\\textcolor\x7bcolor\x7d\x7btext\x7d` commands AS IS. \n               - **DO NOT** convert color to bold (`**`) or italic (`*`).\n               - **DO NOT** convert color to HTML.\n               - Convert `\x7b\\color\x7bcolor\x7d text\x7d` to `\\textcolor\x7bcolor\x7d\x7btext\x7d`.\n            2. Convert LaTeX sections (\\section, \\subsection) to Markdown headers (#, ##).\n            3. Convert LaTeX lists to Markdown lists.\n            4. Convert LaTeX text formatting (\\textbf, \\textit) to Markdown (**...**, *...*).\n               - Only convert `\\textbf` and `\\textit`. DO NOT touch `\\textcolor`.\n            5. Keep LaTeX math ($...$, $$...$$) unchanged.\n            6. Return ONLY the converted Markdown content.\n            7. Do not include markdown code fences.\n            \n            Content:\n            \"" ++
  content ++
  "\"\n            "

/-- The fixed OCR system prompt, app.py lines 266-280. -/
def ocr_system_prompt : String :=
  "Transcribe this handwritten note into valid XeLaTeX code.\n\nRULES:\n1. Return ONLY the body content (formulas, text, etc.).\n2. Do NOT include \\documentclass, \\begin\x7bdocument\x7d, \\maketitle, or \\end\x7bdocument\x7d.\n3. Assume standard packages (amsmath, amssymb, geometry, xcolor) are already loaded.\n4. Use standard LaTeX math mode ($...$ for inline, $$...$$ for display).\n5. Correct any obvious physical or mathematical errors based on context.\n6. Return ONLY the LaTeX code, no markdown fencing.\n7. **COLOR DETECTION**: \n   - Detect the color of the handwritten strokes.\n   - If the handwriting is **RED**, wrap the corresponding LaTeX text/formula in \\textcolor\x7bred\x7d\x7b...\x7d.\n   - If the handwriting is another distinct color (e.g., blue, green), use \\textcolor\x7bname\x7d\x7b...\x7d accordingly.\n   - Default/White/Black text should NOT have color commands.\n"

/-- The continuity instruction appended with a non-empty `previousContext`. -/
def prev_instruction : String :=
  "INSTRUCTION: Ensure your transcription flows naturally from this previous context."

/-- The continuity instruction appended with a non-empty `nextContext`. -/
def next_instruction : String :=
  "INSTRUCTION: Ensure your transcription connects smoothly to this next context."

/-- Block appended at app.py line 283 when `previous_context` is truthy. -/
def prev_context_block (previous_context : String) : String :=
  "\n\nPREVIOUS CONTEXT (The text immediately preceding this image):\n..." ++
  previous_context ++ "\n\n" ++ prev_instruction

/-- Block appended at app.py line 286 when `next_context` is truthy. -/
def next_context_block (next_context : String) : String :=
  "\n\nNEXT CONTEXT (The text immediately following this image):\n" ++
  next_context ++ "...\n\n" ++ next_instruction

/-- The composed OCR prompt, app.py lines 266-286. -/
def ocr_prompt (previous_context next_context : String) : String :=
  let p1 := if previous_context = "" then ocr_system_prompt
            else ocr_system_prompt ++ prev_context_block previous_context
  if next_context = "" then p1 else p1 ++ next_context_block next_context

/-! ### Endpoints

Each endpoint maps the request body and the stubbed model call results to
`(response, trace)`, where `trace` lists the user prompts of the model
calls attempted, in order.  A `.error` stub models the upstream call
raising; the source's broad `except` turns it into `{error: str(e)}` with
status 500.
-/

/-- `/api/analyze`, app.py lines 16-152. -/
def analyze (body : AnalyzeBody) (explainStub vizStub : Except String String) :
    HttpResponse × List String :=
  if body.context = "" then
    (⟨[("error", "No context provided")], 400⟩, [])
  else if configUsable body.reasoningConfig then
    match explainStub with
    | Except.error e =>
        (⟨[("error", e)], 500⟩, [explanation_prompt body.context body.fullContext])
    | Except.ok raw =>
        let explanation := pyStrip raw
        if configUsable body.visionConfig then
          match vizStub with
          | Except.error e =>
              (⟨[("error", e)], 500⟩,
               [explanation_prompt body.context body.fullContext,
                viz_prompt body.context explanation body.fullContext])
          | Except.ok vraw =>
              (⟨[("explanation", explanation),
                 ("visualization", analyzeVizSanitize vraw)], 200⟩,
               [explanation_prompt body.context body.fullContext,
                viz_prompt body.context explanation body.fullContext])
        else
          (⟨[("error", "Vision API configuration missing. Please configure settings.")], 401⟩,
           [explanation_prompt body.context body.fullContext])
  else
    (⟨[("error", "Reasoning API configuration missing. Please configure settings.")], 401⟩,
     [])

/-- `/api/convert`, app.py lines 154-240. -/
def convert_format (body : ConvertBody) (stub : Except String String) :
    HttpResponse × List String :=
  let target_format := body.targetFormat.getD "tex"
  if body.content = "" then
    (⟨[("error", "No content provided")], 400⟩, [])
  else if configUsable body.reasoningConfig then
    let prompt := if target_format = "tex" then convert_prompt_tex body.content
                  else convert_prompt_md body.content
    match stub with
    | Except.error e => (⟨[("error", e)], 500⟩, [prompt])
    | Except.ok raw =>
        match convertSanitize raw with
        | Except.error e => (⟨[("error", e)], 500⟩, [prompt])
        | Except.ok converted => (⟨[("converted", converted)], 200⟩, [prompt])
  else
    (⟨[("error", "Reasoning API configuration missing. Please configure settings.")], 401⟩,
     [])

/-- `/api/ocr`, app.py lines 242-322. -/
def ocr (body : OcrBody) (stub : Except String String) :
    HttpResponse × List String :=
  if body.image = "" then
    (⟨[("error", "No image provided")], 400⟩, [])
  else if configUsable body.visionConfig then
    let prompt := ocr_prompt body.previousContext body.nextContext
    match stub with
    | Except.error e => (⟨[("error", e)], 500⟩, [prompt])
    | Except.ok raw => (⟨[("latex", ocrSanitize raw)], 200⟩, [prompt])
  else
    (⟨[("error", "Vision API configuration missing. Please configure settings.")], 401⟩,
     [])

/-! ### Substring containment

`containsAux pat l` decides whether `pat` occurs as a contiguous run in
`l`; `strContains s pat` is the string version.  Used to state the
prompt-containment and prompt-absence properties.
-/

def containsAux (pat : List Char) : List Char → Bool
  | [] => pat.isEmpty
  | c :: cs => pat.isPrefixOf (c :: cs) || containsAux pat cs

def strContains (s pat : String) : Bool :=
  containsAux pat.data s.data

/-! ### Helper lemmas -/

theorem containsAux_iff (pat l : List Char) :
    containsAux pat l = true ↔ pat <:+: l := by
  induction l with
  | nil => simp [containsAux, List.isEmpty_iff]
  | cons c cs ih =>
      simp [containsAux, ih, List.infix_cons_iff, List.isPrefixOf_iff_prefix]

theorem not_infix_of_strContains_false {s pat : String}
    (h : strContains s pat = false) : ¬ (pat.data <:+: s.data) := by
  intro hinf
  rw [← containsAux_iff] at hinf
  rw [strContains] at h
  exact absurd hinf (by simp [h])

theorem str_infix_mid (a m b : String) : m.data <:+: (a ++ m ++ b).data := by
  refine ⟨a.data, b.data, ?_⟩
  simp [String.data_append]

theorem str_infix_right (a m : String) : m.data <:+: (a ++ m).data := by
  refine ⟨a.data, [], ?_⟩
  simp [String.data_append]

theorem str_infix_extend_right (m s t : String) (h : m.data <:+: s.data) :
    m.data <:+: (s ++ t).data := by
  rw [String.data_append]
  exact h.trans ⟨[], t.data, by simp⟩

theorem str_infix_extend_left (m s t : String) (h : m.data <:+: t.data) :
    m.data <:+: (s ++ t).data := by
  rw [String.data_append]
  exact h.trans ⟨s.data, [], by simp⟩

theorem str_infix_six (s1 s2 s3 s4 c e f : String) :
    e.data <:+: (s1 ++ c ++ s2 ++ e ++ s3 ++ f ++ s4).data := by
  simp only [String.data_append]
  simpa [List.append_assoc] using
    List.infix_append (s1.data ++ c.data ++ s2.data) e.data
      (s3.data ++ f.data ++ s4.data)

theorem dropWhile_of_prefix_of_dropWhile_self (p : Char → Bool) (u : List Char)
    (hu : u.dropWhile p = u) :
    ((u.reverse.dropWhile p).reverse).dropWhile p = (u.reverse.dropWhile p).reverse := by
  have hpre : (u.reverse.dropWhile p).reverse <+: u := by
    have h1 : u.reverse.dropWhile p <:+ u.reverse := List.dropWhile_suffix p
    have h2 : ((u.reverse.dropWhile p).reverse).reverse <:+ u.reverse := by
      rw [List.reverse_reverse]; exact h1
    exact List.reverse_suffix.mp h2
  cases hv : (u.reverse.dropWhile p).reverse with
  | nil => simp
  | cons c cs =>
      obtain ⟨t, ht⟩ := hpre
      rw [hv] at ht
      rw [← ht] at hu
      have hpc : p c = false := by
        by_contra hx
        rw [Bool.not_eq_false] at hx
        rw [List.cons_append, List.dropWhile_cons_of_pos hx] at hu
        have hlen := congrArg List.length hu
        have hle : ((cs ++ t).dropWhile p).length ≤ (cs ++ t).length :=
          (List.dropWhile_sublist (l := cs ++ t) p).length_le
        simp only [List.length_cons] at hlen
        omega
      rw [List.dropWhile_cons, hpc]
      simp

theorem trimAux_idem (p : Char → Bool) (l : List Char) :
    ((((((l.dropWhile p).reverse.dropWhile p).reverse).dropWhile p).reverse).dropWhile p).reverse =
    ((l.dropWhile p).reverse.dropWhile p).reverse := by
  have h1 := dropWhile_of_prefix_of_dropWhile_self p (l.dropWhile p)
    (List.dropWhile_idempotent p l)
  rw [h1, List.reverse_reverse, List.dropWhile_idempotent]

theorem pyStrip_idempotent (s : String) : pyStrip (pyStrip s) = pyStrip s :=
  congrArg String.mk (trimAux_idem isPySpace s.data)

theorem pyStartswith_of_extends {s pre ext : String}
    (hpe : pre.data <+: ext.data) (h : pyStartswith s pre = false) :
    pyStartswith s ext = false := by
  rw [pyStartswith] at h ⊢
  by_contra hx
  rw [Bool.not_eq_false, List.isPrefixOf_iff_prefix] at hx
  rw [← Bool.not_eq_true, List.isPrefixOf_iff_prefix] at h
  exact h (hpe.trans hx)

theorem vizCleanup_noop (z : String) (h1 : pyStartswith z "```" = false)
    (h2 : pyEndswith z "```" = false) : vizCleanup z = z := by
  have hh : pyStartswith z "```html" = false :=
    pyStartswith_of_extends (by decide) h1
  simp [vizCleanup, hh, h1, h2]

theorem ocrCleanup_noop (z : String) (h1 : pyStartswith z "```" = false)
    (h2 : pyEndswith z "```" = false) : ocrCleanup z = z := by
  have hh : pyStartswith z "```latex" = false :=
    pyStartswith_of_extends (by decide) h1
  simp [ocrCleanup, hh, h1, h2]

theorem convertCleanup_noop (z : String) (h1 : pyStartswith z "```" = false)
    (h2 : pyEndswith z "```" = false) : convertCleanup z = Except.ok z := by
  have hl : pyStartswith z "```latex" = false :=
    pyStartswith_of_extends (by decide) h1
  have hm : pyStartswith z "```markdown" = false :=
    pyStartswith_of_extends (by decide) h1
  simp [convertCleanup, hl, hm, h1, h2]

/-! ### Claim theorems -/

/-- C2 (counterexample): the claim "strip_wrapper(strip_wrapper(x)) ==
strip_wrapper(x) for every string x, for each of the three endpoints'
sanitizers" is false: on the nine-backtick string each endpoint's cleanup
returns "```" whose re-sanitization returns "", so a second application
strips further for all three endpoints. -/
theorem sanitizers_not_idempotent_nine_backticks :
    vizCleanup (vizCleanup "`````````") ≠ vizCleanup "`````````" ∧
    analyzeVizSanitize (analyzeVizSanitize "`````````") ≠ analyzeVizSanitize "`````````" ∧
    ocrSanitize (ocrSanitize "`````````") ≠ ocrSanitize "`````````" ∧
    convertSanitize "`````````" = Except.ok "```" ∧
    convertSanitize "```" = Except.ok "" :=
  ⟨by decide, by decide, by decide, rfl, rfl⟩

/-- C2 (amended): sanitization is idempotent exactly on outputs carrying no
residual fence: for the OCR and Convert sanitizers (which trim last) a
second application is the identity whenever the first output neither starts
nor ends with "```"; for the Analyze visualization cleanup (which trims the
raw text before fence-stripping, not after) the output must in addition be
already trimmed. -/
theorem sanitizers_idempotent_on_clean_output (x y : String) :
    (pyStartswith (analyzeVizSanitize x) "```" = false →
     pyEndswith (analyzeVizSanitize x) "```" = false →
     pyStrip (analyzeVizSanitize x) = analyzeVizSanitize x →
     analyzeVizSanitize (analyzeVizSanitize x) = analyzeVizSanitize x) ∧
    (pyStartswith (ocrSanitize x) "```" = false →
     pyEndswith (ocrSanitize x) "```" = false →
     ocrSanitize (ocrSanitize x) = ocrSanitize x) ∧
    (convertSanitize x = Except.ok y →
     pyStartswith y "```" = false → pyEndswith y "```" = false →
     convertSanitize y = Except.ok y) := by
  refine ⟨fun h1 h2 h3 => ?_, fun h1 h2 => ?_, fun hx h1 h2 => ?_⟩
  · show vizCleanup (pyStrip (analyzeVizSanitize x)) = analyzeVizSanitize x
    rw [h3]
    exact vizCleanup_noop _ h1 h2
  · have hz : pyStrip (ocrSanitize x) = ocrSanitize x := by
      simp only [ocrSanitize]
      exact pyStrip_idempotent _
    show pyStrip (ocrCleanup (pyStrip (ocrSanitize x))) = ocrSanitize x
    rw [hz, ocrCleanup_noop _ h1 h2, hz]
  · cases hc : convertCleanup (pyStrip x) with
    | error e =>
        exfalso
        simp only [convertSanitize, hc, Except.map] at hx
        exact Except.noConfusion hx
    | ok c =>
        have hcx : pyStrip c = y := by
          simp only [convertSanitize, hc, Except.map] at hx
          injection hx
        have hy : pyStrip y = y := by rw [← hcx]; exact pyStrip_idempotent c
        show (convertCleanup (pyStrip y)).map pyStrip = Except.ok y
        rw [hy, convertCleanup_noop y h1 h2]
        simp [Except.map, hy]

/-- C2 (witness): the amended idempotence at the concrete input "hello",
whose sanitized output is fence-free and trimmed. -/
theorem sanitizers_idempotent_on_clean_output_witness :
    analyzeVizSanitize (analyzeVizSanitize "hello") = analyzeVizSanitize "hello" ∧
    ocrSanitize (ocrSanitize "hello") = ocrSanitize "hello" ∧
    convertSanitize "hello" = Except.ok "hello" :=
  ⟨(sanitizers_idempotent_on_clean_output "hello" "hello").1 (by decide) (by decide) (by decide),
   (sanitizers_idempotent_on_clean_output "hello" "hello").2.1 (by decide) (by decide),
   (sanitizers_idempotent_on_clean_output "hello" "hello").2.2 rfl (by decide) (by decide)⟩

/-- C3 (counterexample): the Analyze visualization cleanup does NOT return
"<div/>" on the raw text "```html\n<div/>\n```": the Analyze endpoint
trims the raw text before fence-stripping and never after, so the inner
newlines survive. -/
theorem analyze_html_fence_not_trimmed :
    analyzeVizSanitize "```html\n<div/>\n```" ≠ "<div/>" := by decide

/-- C3 (amended): on "```html\n<div/>\n```" the Analyze visualization
cleanup removes exactly one leading tagged fence and one trailing bare
fence, but whitespace is trimmed before fence-stripping (on the raw model
text), not as a final step, so the result is "\n<div/>\n". -/
theorem analyze_html_fence_result :
    analyzeVizSanitize "```html\n<div/>\n```" = "\n<div/>\n" := by decide

/-- C4 (code bug evaluated at the failing input): the Convert sanitizer is
not total — on a raw model text that is exactly the tagged fence opener
"```latex" with no following newline, `converted.split('\n', 1)[1]` raises
`IndexError`, and the endpoint answers with the 500 error response instead
of a sanitized string. -/
theorem convert_cleanup_raises_on_bare_tagged_opener :
    convertSanitize "```latex" = Except.error "list index out of range" ∧
    (convert_format ⟨"x", none, some ⟨"k", "", "m"⟩⟩ (Except.ok "```latex")).1 =
      ⟨[("error", "list index out of range")], 500⟩ :=
  ⟨rfl, rfl⟩

/-- C8: end-to-end OCR: for body `{image: "<data>", visionConfig:
{apiKey: "k", model: "m"}}` and a stubbed model returning
"```latex\n$x^2$\n```", the endpoint responds `{latex: "$x^2$"}`. -/
theorem ocr_end_to_end_stubbed :
    (ocr ⟨"<data>", some ⟨"k", "", "m"⟩, "", ""⟩ (Except.ok "```latex\n$x^2$\n```")).1 =
      ⟨[("latex", "$x^2$")], 200⟩ := by decide

/-- C1 (counterexample): an Analyze request with a valid reasoningConfig
but missing visionConfig does NOT make zero model calls: the explain call
is issued before the vision-config check, so the 401 config-missing
response is produced after exactly one model call. -/
theorem analyze_missing_vision_one_model_call :
    (analyze ⟨"c", "f", some ⟨"k", "", "m"⟩, none⟩ (Except.ok "E") (Except.ok "V")).1.status = 401 ∧
    (analyze ⟨"c", "f", some ⟨"k", "", "m"⟩, none⟩ (Except.ok "E") (Except.ok "V")).2.length = 1 :=
  ⟨rfl, rfl⟩

/-- C1 (amended): a required config block that is absent or has an
absent/empty apiKey yields the 401 config-missing error; the
reasoning-config checks of Analyze and Convert and the vision-config check
of OCR run before any model call (empty trace), but Analyze's
vision-config check runs only after the explain call, so that request
makes exactly one model call before its 401. -/
theorem config_missing_short_circuit (ab : AnalyzeBody) (cb : ConvertBody) (ob : OcrBody)
    (e1 e2 s1 s2 : Except String String) (r : String) :
    (ab.context ≠ "" → configUsable ab.reasoningConfig = false →
      analyze ab e1 e2 =
        (⟨[("error", "Reasoning API configuration missing. Please configure settings.")], 401⟩,
         [])) ∧
    (cb.content ≠ "" → configUsable cb.reasoningConfig = false →
      convert_format cb s1 =
        (⟨[("error", "Reasoning API configuration missing. Please configure settings.")], 401⟩,
         [])) ∧
    (ob.image ≠ "" → configUsable ob.visionConfig = false →
      ocr ob s2 =
        (⟨[("error", "Vision API configuration missing. Please configure settings.")], 401⟩,
         [])) ∧
    (ab.context ≠ "" → configUsable ab.reasoningConfig = true →
     configUsable ab.visionConfig = false →
      analyze ab (Except.ok r) e2 =
        (⟨[("error", "Vision API configuration missing. Please configure settings.")], 401⟩,
         [explanation_prompt ab.context ab.fullContext])) := by
  refine ⟨fun h1 h2 => ?_, fun h1 h2 => ?_, fun h1 h2 => ?_, fun h1 h2 h3 => ?_⟩
  · simp [analyze, h1, h2]
  · simp [convert_format, h1, h2]
  · simp [ocr, h1, h2]
  · simp [analyze, h1, h2, h3]

/-- C1 (witness): the amended behaviour at concrete requests: missing
reasoning config answers 401 with no call; valid reasoning config but
missing vision config answers 401 after the one explain call. -/
theorem config_missing_short_circuit_witness :
    analyze ⟨"c", "f", none, none⟩ (Except.ok "E") (Except.ok "V") =
      (⟨[("error", "Reasoning API configuration missing. Please configure settings.")], 401⟩,
       []) ∧
    analyze ⟨"c", "f", some ⟨"k", "", "m"⟩, none⟩ (Except.ok "E") (Except.ok "V") =
      (⟨[("error", "Vision API configuration missing. Please configure settings.")], 401⟩,
       [explanation_prompt "c" "f"]) :=
  ⟨(config_missing_short_circuit ⟨"c", "f", none, none⟩ ⟨"x", none, none⟩
      ⟨"i", none, "", ""⟩ (Except.ok "E") (Except.ok "V") (Except.ok "X") (Except.ok "X")
      "E").1 (by decide) rfl,
   (config_missing_short_circuit ⟨"c", "f", some ⟨"k", "", "m"⟩, none⟩ ⟨"x", none, none⟩
      ⟨"i", none, "", ""⟩ (Except.ok "E") (Except.ok "V") (Except.ok "X") (Except.ok "X")
      "E").2.2.2 (by decide) rfl rfl⟩

/-- C5: a well-formed body with missing/empty `context` (Analyze),
`content` (Convert) or `image` (OCR) answers the 400 validation error with
no model call attempted; the statements hold for every config block, in
particular an OCR request with empty image and an unusable visionConfig
still answers 400, showing the image check precedes credential
resolution. -/
theorem missing_field_validation_short_circuit (ab : AnalyzeBody) (cb : ConvertBody)
    (ob : OcrBody) (e1 e2 s1 s2 : Except String String) :
    (ab.context = "" →
      analyze ab e1 e2 = (⟨[("error", "No context provided")], 400⟩, [])) ∧
    (cb.content = "" →
      convert_format cb s1 = (⟨[("error", "No content provided")], 400⟩, [])) ∧
    (ob.image = "" →
      ocr ob s2 = (⟨[("error", "No image provided")], 400⟩, [])) := by
  refine ⟨fun h => ?_, fun h => ?_, fun h => ?_⟩ <;>
    simp [analyze, convert_format, ocr, h]

/-- C5 (witness): concrete requests with the required field empty — the
OCR one with `visionConfig` absent as well, so the 400 answer shows the
image check wins over credential resolution. -/
theorem missing_field_validation_witness :
    analyze ⟨"", "f", some ⟨"k", "", "m"⟩, some ⟨"k", "", "m"⟩⟩ (Except.ok "E") (Except.ok "V") =
      (⟨[("error", "No context provided")], 400⟩, []) ∧
    convert_format ⟨"", some "tex", some ⟨"k", "", "m"⟩⟩ (Except.ok "X") =
      (⟨[("error", "No content provided")], 400⟩, []) ∧
    ocr ⟨"", none, "p", "n"⟩ (Except.ok "X") =
      (⟨[("error", "No image provided")], 400⟩, []) :=
  ⟨(missing_field_validation_short_circuit ⟨"", "f", some ⟨"k", "", "m"⟩, some ⟨"k", "", "m"⟩⟩
      ⟨"", some "tex", some ⟨"k", "", "m"⟩⟩ ⟨"", none, "p", "n"⟩
      (Except.ok "E") (Except.ok "V") (Except.ok "X") (Except.ok "X")).1 rfl,
   (missing_field_validation_short_circuit ⟨"", "f", some ⟨"k", "", "m"⟩, some ⟨"k", "", "m"⟩⟩
      ⟨"", some "tex", some ⟨"k", "", "m"⟩⟩ ⟨"", none, "p", "n"⟩
      (Except.ok "E") (Except.ok "V") (Except.ok "X") (Except.ok "X")).2.1 rfl,
   (missing_field_validation_short_circuit ⟨"", "f", some ⟨"k", "", "m"⟩, some ⟨"k", "", "m"⟩⟩
      ⟨"", some "tex", some ⟨"k", "", "m"⟩⟩ ⟨"", none, "p", "n"⟩
      (Except.ok "E") (Except.ok "V") (Except.ok "X") (Except.ok "X")).2.2 rfl⟩

/-- C6: for every Analyze request that reaches the visualization stage
(non-empty context, both configs usable, explain stub succeeding with raw
text `r`), the second model call is made with the visualization prompt,
and that prompt contains the sanitized explanation `pyStrip r` as a
literal substring. -/
theorem analyze_viz_prompt_contains_explanation (ab : AnalyzeBody) (r : String)
    (vz : Except String String) (h1 : ab.context ≠ "")
    (h2 : configUsable ab.reasoningConfig = true)
    (h3 : configUsable ab.visionConfig = true) :
    (analyze ab (Except.ok r) vz).2 =
      [explanation_prompt ab.context ab.fullContext,
       viz_prompt ab.context (pyStrip r) ab.fullContext] ∧
    (pyStrip r).data <:+: (viz_prompt ab.context (pyStrip r) ab.fullContext).data := by
  constructor
  · cases vz <;> simp [analyze, h1, h2, h3]
  · simp only [viz_prompt]
    exact str_infix_six _ _ _ _ _ _ _

/-- C6 (witness): the chaining at a concrete request with stubbed model
results. -/
theorem analyze_viz_prompt_contains_explanation_witness :
    (analyze ⟨"c", "f", some ⟨"k", "", "m"⟩, some ⟨"k", "", "m"⟩⟩ (Except.ok "E")
        (Except.ok "V")).2 =
      [explanation_prompt "c" "f", viz_prompt "c" (pyStrip "E") "f"] ∧
    (pyStrip "E").data <:+: (viz_prompt "c" (pyStrip "E") "f").data :=
  analyze_viz_prompt_contains_explanation ⟨"c", "f", some ⟨"k", "", "m"⟩, some ⟨"k", "", "m"⟩⟩
    "E" (Except.ok "V") (by decide) rfl rfl

set_option maxRecDepth 4000 in
/-- C7: OCR prompt stitching: a non-empty previousContext (resp.
nextContext) puts its literal text and the matching continuity instruction
into the composed prompt; with both empty the prompt is exactly the base
system prompt, which contains neither continuity instruction. -/
theorem ocr_prompt_stitching (prev next : String) :
    (prev ≠ "" →
      prev.data <:+: (ocr_prompt prev next).data ∧
      prev_instruction.data <:+: (ocr_prompt prev next).data) ∧
    (next ≠ "" →
      next.data <:+: (ocr_prompt prev next).data ∧
      next_instruction.data <:+: (ocr_prompt prev next).data) ∧
    (prev = "" → next = "" → ocr_prompt prev next = ocr_system_prompt) ∧
    ¬ (prev_instruction.data <:+: ocr_system_prompt.data) ∧
    ¬ (next_instruction.data <:+: ocr_system_prompt.data) := by
  have hp1 : prev.data <:+: (prev_context_block prev).data := by
    simp only [prev_context_block]
    exact str_infix_extend_right _ _ _ (str_infix_extend_right _ _ _ (str_infix_right _ _))
  have hp2 : prev_instruction.data <:+: (prev_context_block prev).data := by
    simp only [prev_context_block]
    exact str_infix_right _ _
  have hn1 : next.data <:+: (next_context_block next).data := by
    simp only [next_context_block]
    exact str_infix_extend_right _ _ _ (str_infix_extend_right _ _ _ (str_infix_right _ _))
  have hn2 : next_instruction.data <:+: (next_context_block next).data := by
    simp only [next_context_block]
    exact str_infix_right _ _
  refine ⟨fun h => ?_, fun h => ?_, fun h1 h2 => ?_, ?_, ?_⟩
  · by_cases hn : next = ""
    · simp only [ocr_prompt, if_neg h, if_pos hn]
      exact ⟨str_infix_extend_left _ _ _ hp1, str_infix_extend_left _ _ _ hp2⟩
    · simp only [ocr_prompt, if_neg h, if_neg hn]
      exact ⟨str_infix_extend_right _ _ _ (str_infix_extend_left _ _ _ hp1),
             str_infix_extend_right _ _ _ (str_infix_extend_left _ _ _ hp2)⟩
  · by_cases hp : prev = ""
    · simp only [ocr_prompt, if_pos hp, if_neg h]
      exact ⟨str_infix_extend_left _ _ _ hn1, str_infix_extend_left _ _ _ hn2⟩
    · simp only [ocr_prompt, if_neg hp, if_neg h]
      exact ⟨str_infix_extend_left _ _ _ hn1, str_infix_extend_left _ _ _ hn2⟩
  · simp [ocr_prompt, h1, h2]
  · exact not_infix_of_strContains_false rfl
  · exact not_infix_of_strContains_false rfl

/-- C7 (witness): stitching at the concrete contexts "P" and "N". -/
theorem ocr_prompt_stitching_witness :
    ("P".data <:+: (ocr_prompt "P" "N").data ∧
     prev_instruction.data <:+: (ocr_prompt "P" "N").data) ∧
    ("N".data <:+: (ocr_prompt "P" "N").data ∧
     next_instruction.data <:+: (ocr_prompt "P" "N").data) :=
  ⟨(ocr_prompt_stitching "P" "N").1 (by decide),
   (ocr_prompt_stitching "P" "N").2.1 (by decide)⟩

/-- C9: every response is a single JSON object, either exactly the task's
success shape with status 200 or exactly the error shape with a non-200
status; when the visualization stage fails after a successful explanation,
the response is exactly the error object — the partial explanation is
discarded. -/
theorem single_json_object_response (ab : AnalyzeBody) (cb : ConvertBody) (ob : OcrBody)
    (e1 e2 s1 s2 : Except String String) (r m : String) :
    ((analyze ab e1 e2).1.fields.map Prod.fst = ["explanation", "visualization"] ∧
       (analyze ab e1 e2).1.status = 200 ∨
     (analyze ab e1 e2).1.fields.map Prod.fst = ["error"] ∧
       (analyze ab e1 e2).1.status ≠ 200) ∧
    ((convert_format cb s1).1.fields.map Prod.fst = ["converted"] ∧
       (convert_format cb s1).1.status = 200 ∨
     (convert_format cb s1).1.fields.map Prod.fst = ["error"] ∧
       (convert_format cb s1).1.status ≠ 200) ∧
    ((ocr ob s2).1.fields.map Prod.fst = ["latex"] ∧ (ocr ob s2).1.status = 200 ∨
     (ocr ob s2).1.fields.map Prod.fst = ["error"] ∧ (ocr ob s2).1.status ≠ 200) ∧
    (ab.context ≠ "" → configUsable ab.reasoningConfig = true →
     configUsable ab.visionConfig = true →
      analyze ab (Except.ok r) (Except.error m) =
        (⟨[("error", m)], 500⟩,
         [explanation_prompt ab.context ab.fullContext,
          viz_prompt ab.context (pyStrip r) ab.fullContext])) := by
  refine ⟨?_, ?_, ?_, fun h1 h2 h3 => by simp [analyze, h1, h2, h3]⟩
  · by_cases hc : ab.context = ""
    · right; simp [analyze, hc]
    · cases hr : configUsable ab.reasoningConfig with
      | false => right; simp [analyze, hc, hr]
      | true =>
          cases e1 with
          | error e => right; simp [analyze, hc, hr]
          | ok r' =>
              cases hv : configUsable ab.visionConfig with
              | false => right; simp [analyze, hc, hr, hv]
              | true =>
                  cases e2 with
                  | error e => right; simp [analyze, hc, hr, hv]
                  | ok v => left; simp [analyze, hc, hr, hv]
  · by_cases hc : cb.content = ""
    · right; simp [convert_format, hc]
    · cases hr : configUsable cb.reasoningConfig with
      | false => right; simp [convert_format, hc, hr]
      | true =>
          cases s1 with
          | error e => right; simp [convert_format, hc, hr]
          | ok raw =>
              cases hcs : convertSanitize raw with
              | error e => right; simp [convert_format, hc, hr, hcs]
              | ok c => left; simp [convert_format, hc, hr, hcs]
  · by_cases hi : ob.image = ""
    · right; simp [ocr, hi]
    · cases hv : configUsable ob.visionConfig with
      | false => right; simp [ocr, hi, hv]
      | true =>
          cases s2 with
          | error e => right; simp [ocr, hi, hv]
          | ok raw => left; simp [ocr, hi, hv]

/-- C9 (witness): the failure-after-success scenario at a concrete
request: explain succeeds with "E", visualization fails with "boom", and
the response is exactly the error object. -/
theorem single_json_object_response_witness :
    analyze ⟨"c", "f", some ⟨"k", "", "m"⟩, some ⟨"k", "", "m"⟩⟩ (Except.ok "E")
        (Except.error "boom") =
      (⟨[("error", "boom")], 500⟩,
       [explanation_prompt "c" "f", viz_prompt "c" (pyStrip "E") "f"]) :=
  (single_json_object_response ⟨"c", "f", some ⟨"k", "", "m"⟩, some ⟨"k", "", "m"⟩⟩
    ⟨"x", none, none⟩ ⟨"i", none, "", ""⟩ (Except.ok "E") (Except.error "boom")
    (Except.ok "X") (Except.ok "X") "E" "boom").2.2.2 (by decide) rfl rfl

/-- C10: Convert's `targetFormat` defaults to "tex" when absent; "tex"
selects the LaTeX template and every other supplied value selects the
Markdown template; no value of `targetFormat` can cause the 400 validation
error (status 400 implies the content was empty). -/
theorem convert_target_format_behavior (cb : ConvertBody) (s : Except String String)
    (v : String) :
    (cb.content ≠ "" → configUsable cb.reasoningConfig = true →
      ((cb.targetFormat = none ∨ cb.targetFormat = some "tex") →
        (convert_format cb s).2 = [convert_prompt_tex cb.content]) ∧
      (cb.targetFormat = some v → v ≠ "tex" →
        (convert_format cb s).2 = [convert_prompt_md cb.content])) ∧
    ((convert_format cb s).1.status = 400 → cb.content = "") := by
  constructor
  · intro h1 h2
    constructor
    · rintro (hn | ht)
      · cases s with
        | error e => simp [convert_format, h1, h2, hn]
        | ok raw =>
            cases hcs : convertSanitize raw <;>
              simp [convert_format, h1, h2, hn, hcs]
      · cases s with
        | error e => simp [convert_format, h1, h2, ht]
        | ok raw =>
            cases hcs : convertSanitize raw <;>
              simp [convert_format, h1, h2, ht, hcs]
    · intro hv hne
      cases s with
      | error e => simp [convert_format, h1, h2, hv, hne]
      | ok raw =>
          cases hcs : convertSanitize raw <;>
            simp [convert_format, h1, h2, hv, hne, hcs]
  · intro h4
    by_contra hne
    cases hr : configUsable cb.reasoningConfig with
    | false => simp [convert_format, hne, hr] at h4
    | true =>
        cases s with
        | error e => simp [convert_format, hne, hr] at h4
        | ok raw =>
            cases hcs : convertSanitize raw <;>
              simp [convert_format, hne, hr, hcs] at h4

/-- C10 (witness): an unrecognized value "yaml" selects the Markdown
template and an absent targetFormat selects the LaTeX template at a
concrete request. -/
theorem convert_target_format_witness :
    (convert_format ⟨"c", some "yaml", some ⟨"k", "", "m"⟩⟩ (Except.ok "X")).2 =
      [convert_prompt_md "c"] ∧
    (convert_format ⟨"c", none, some ⟨"k", "", "m"⟩⟩ (Except.ok "X")).2 =
      [convert_prompt_tex "c"] :=
  ⟨((convert_target_format_behavior ⟨"c", some "yaml", some ⟨"k", "", "m"⟩⟩
      (Except.ok "X") "yaml").1 (by decide) rfl).2 rfl (by decide),
   ((convert_target_format_behavior ⟨"c", none, some ⟨"k", "", "m"⟩⟩
      (Except.ok "X") "yaml").1 (by decide) rfl).1 (Or.inl rfl)⟩

end Principia
